import Mathlib

/-!
Verification development for the bulk pagination / bounded-concurrency
fan-out / retry utilities of the eclipse-ditto-examples repository
(`src/utils/bulk_operations.py`, `src/utils/http_client.py`, `src/cleanup.py`).

The Python code is shallowly embedded: the external Ditto backend is an
oracle function, HTTP responses are `Except String Nat` (an exception or a
status code), and the cooperative-concurrency fan-out rounds are modelled
by their per-item outcomes (each item's outcome is independent, and the
claims proved below are insensitive to completion order, so completion is
taken in submission order).  The semaphore discipline of `sem_delete` is
modelled separately as a small-step transition system for the concurrency
bound claim.
-/

/-- One page of the `/search/things` response: the (optional) `thingId` of
each item, and the optional continuation `cursor`.  A missing `thingId`
corresponds to `item.get("thingId")` returning `None` in
`collect_thing_ids_with_progress`. -/
structure SearchPage where
  items : List (Option String)
  cursor : Option String
deriving Repr, DecidableEq

/-- Python truthiness of an optional string (`bool(current_cursor)` /
`if thing_id:`): absent and empty strings are falsy. -/
def strTruthy : Option String → Bool
  | none => false
  | some s => s ≠ ""

/-- The inner `for item in items:` loop of `collect_thing_ids_with_progress`
(bulk_operations.py lines 60-67): append each truthy `thingId`, and once the
running total reaches `count` stop the whole collection (`has_more_pages =
False; break`).  `collected` is the number of ids accumulated before this
page; returns the ids taken from this page and whether the count stop
triggered. -/
def take_items (count : Option Nat) (collected : Nat) :
    List (Option String) → List String × Bool
  | [] => ([], false)
  | it :: rest =>
    if strTruthy it then
      let tid := it.getD ""
      match count with
      | none =>
        let r := take_items none (collected + 1) rest
        (tid :: r.1, r.2)
      | some c =>
        if c ≤ collected + 1 then ([tid], true)
        else
          let r := take_items (some c) (collected + 1) rest
          (tid :: r.1, r.2)
    else take_items count collected rest

/-- The ids a page contributes when no count bound interferes. -/
def truthyIds (items : List (Option String)) : List String :=
  (items.filter strTruthy).map (fun it => it.getD "")

/-- The `while has_more_pages:` loop of `collect_thing_ids_with_progress`
(bulk_operations.py lines 48-73), with the backend abstracted as a function
from the current cursor to either an exception (`Except.error`) or a parsed
page.  Returns the collected ids and the number of page requests issued.
`fuel` bounds the recursion (a backend whose cursors cycle would loop
forever in the source as well); every theorem below supplies enough fuel. -/
def collect_loop (backend : Option String → Except String SearchPage)
    (count : Option Nat) : Nat → Option String → Nat → List String × Nat
  | 0, _, _ => ([], 0)
  | fuel + 1, cursor, collected =>
    match backend cursor with
    | Except.error _ => ([], 1)
    | Except.ok page =>
      let r := take_items count collected page.items
      if r.2 then (r.1, 1)
      else if strTruthy page.cursor then
        let rest := collect_loop backend count fuel page.cursor (collected + r.1.length)
        (r.1 ++ rest.1, rest.2 + 1)
      else (r.1, 1)

/-- Entry point `collect_thing_ids_with_progress(client, page_size, count)`: start with
no cursor and nothing collected.  The progress bar is observational only and
is not modelled. -/
def collect_thing_ids (backend : Option String → Except String SearchPage)
    (count : Option Nat) (fuel : Nat) : List String × Nat :=
  collect_loop backend count fuel none 0

/-- Outcome of one HTTP delete attempt as seen by the client: either the
transport raised an exception, or a response with this status code came
back. -/
def DeleteResponse : Type := Except String Nat

/-- Embedding of `DittoClient.delete_thing` (http_client.py lines 188-203): status 204 or
404 is success, any other status is failure, an exception is failure. -/
def delete_thing : DeleteResponse → Bool
  | Except.ok code => code = 204 || code = 404
  | Except.error _ => false

/-- Embedding of `DittoClient.async_delete_thing` (http_client.py lines 228-250): the
same mapping as `delete_thing`, performed on the shared async client. -/
def async_delete_thing : DeleteResponse → Bool
  | Except.ok code => code = 204 || code = 404
  | Except.error _ => false

/-- Summary dictionary returned by `delete_all_things_parallel`
(bulk_operations.py lines 200-207). -/
structure DeletionSummary where
  total_found : Nat
  deleted_count : Nat
  failed_deletions : List String
  retry_success : List String
  retry_failed : List String
  success : Bool
deriving Repr, DecidableEq

/-- The ids of one fan-out round that succeed, in submission order.  `op id`
is the boolean outcome `await client.async_delete_thing(thing_id, ...)`
returns for `id` in this round. -/
def round_success (op : String → Bool) (ids : List String) : List String :=
  ids.filter op

/-- The ids of one fan-out round that fail, in submission order. -/
def round_failed (op : String → Bool) (ids : List String) : List String :=
  ids.filter (fun id => ! op id)

/-- The retry loop of `delete_all_things_parallel` (bulk_operations.py lines
147-179).  `op id a` is the outcome of the delete of `id` on attempt `a`
(attempt 0 is the initial pass, attempts 1.. are retry rounds).  `attempt`
is the next round number, `remaining` the rounds still allowed; `failed` is
the failed-id set carried into the round.  Returns the accumulated
`retry_success` list and the final failed set.  The source's early `break`
when the failed set empties is the `isEmpty` branch (a round over an empty
set is also a no-op, so exhausting `remaining` afterwards is identical). -/
def retry_rounds (op : String → Nat → Bool) :
    Nat → Nat → List String → List String × List String
  | _, 0, failed => ([], failed)
  | attempt, remaining + 1, failed =>
    if failed.isEmpty then ([], failed)
    else
      let succ := round_success (fun id => op id attempt) failed
      let still := round_failed (fun id => op id attempt) failed
      let r := retry_rounds op (attempt + 1) remaining still
      (succ ++ r.1, r.2)

/-- Embedding of `delete_all_things_parallel` (bulk_operations.py lines 79-207) after the
id collection phase: the collected ids are `ids` and the backend outcome of
each attempted delete is given by `op id attempt`.  The initial fan-out is
attempt 0; retry rounds 1..max_retries run only when `enable_retry` and the
initial pass left failures.  Mirrors the returned summary dictionary,
including `failed_deletions = retry_failed if enable_retry else
failed_deletions` and `success = len(...) == 0`. -/
def delete_all_things_parallel (op : String → Nat → Bool) (ids : List String)
    (enable_retry : Bool) (max_retries : Nat) : DeletionSummary :=
  if ids.isEmpty then
    { total_found := 0, deleted_count := 0, failed_deletions := []
      retry_success := [], retry_failed := [], success := true }
  else
    let succ0 := round_success (fun id => op id 0) ids
    let failed0 := round_failed (fun id => op id 0) ids
    let retried :=
      if enable_retry && ! failed0.isEmpty then retry_rounds op 1 max_retries failed0
      else ([], [])
    let finalFailed := if enable_retry then retried.2 else failed0
    { total_found := ids.length
      deleted_count := succ0.length + retried.1.length
      failed_deletions := finalFailed
      retry_success := retried.1
      retry_failed := retried.2
      success := finalFailed.isEmpty }

/-- The ids that succeed on the initial fan-out pass of
`delete_all_things_parallel` (those that increment `deleted_count` in the
first `as_completed` loop, bulk_operations.py lines 130-138). -/
def first_pass_success (op : String → Nat → Bool) (ids : List String) : List String :=
  round_success (fun id => op id 0) ids

/-- Summary dictionary returned by `spawn_fleet` (bulk_operations.py lines
282-287). -/
structure CreationSummary where
  requested_count : Nat
  created_count : Nat
  failed_creations : List String
  success : Bool
deriving Repr, DecidableEq

/-- One iteration's outcome oracle for `spawn_fleet`: iteration `i` either
raises while generating/creating (`Except.error`), or produces a thing id
together with the boolean result of `client.create_thing`. -/
def SpawnOutcome : Type := Except String (String × Bool)

/-- The `for _ in range(count)` loop of `spawn_fleet` (bulk_operations.py
lines 253-274): on an exception the placeholder `unknown-<created_count>`
is appended to `failed_creations` and the loop continues; otherwise the id
goes to `created_count` or `failed_creations` according to `create_thing`'s
result. -/
def spawn_loop (gen : Nat → SpawnOutcome) :
    Nat → Nat → Nat → List String → Nat × List String
  | _, 0, created, failed => (created, failed)
  | i, remaining + 1, created, failed =>
    match gen i with
    | Except.error _ =>
      spawn_loop gen (i + 1) remaining created (failed ++ ["unknown-" ++ toString created])
    | Except.ok (tid, ok) =>
      if ok then spawn_loop gen (i + 1) remaining (created + 1) failed
      else spawn_loop gen (i + 1) remaining created (failed ++ [tid])

/-- Embedding of `spawn_fleet` (bulk_operations.py lines 210-287) after policy loading
and schema detection (both out of scope): run `count` creation attempts and
assemble the summary. -/
def spawn_fleet (gen : Nat → SpawnOutcome) (count : Nat) : CreationSummary :=
  let r := spawn_loop gen 0 count 0 []
  { requested_count := count
    created_count := r.1
    failed_creations := r.2
    success := r.2.isEmpty }

/-- Lifecycle of one `sem_delete` task (bulk_operations.py lines 123-126 and
the analogous `delete_one` in cleanup.py lines 67-82): it is pending until
it acquires the semaphore, running while it holds it, and done after the
`async with semaphore:` block releases it. -/
inductive TaskPhase
  | pending
  | running
  | done
deriving Repr, DecidableEq

/-- Instantaneous state of one fan-out round: the semaphore's available
permits (`asyncio.Semaphore(max_concurrent)`) and the phase of every task
of the round. -/
structure FanoutState where
  avail : Nat
  tasks : List TaskPhase
deriving Repr, DecidableEq

/-- State at the start of a round over `n` ids with ceiling `k`: all tasks
pending, all permits free. -/
def fanout_init (k n : Nat) : FanoutState :=
  { avail := k, tasks := List.replicate n TaskPhase.pending }

/-- Number of tasks currently inside the `async with semaphore:` block,
i.e. delete operations executing concurrently. -/
def running_count (s : FanoutState) : Nat :=
  s.tasks.countP (fun t => t = TaskPhase.running)

/-- The event-loop steps of one fan-out round: a pending task may enter the
`async with semaphore:` block only when a permit is free (consuming it), and
a running task's delete completes, releasing its permit. -/
inductive FanoutStep : FanoutState → FanoutState → Prop
  | acquire (a : Nat) (ts : List TaskPhase) (i : Fin ts.length)
      (hp : ts.get i = TaskPhase.pending) :
      FanoutStep ⟨a + 1, ts⟩ ⟨a, ts.set i TaskPhase.running⟩
  | release (a : Nat) (ts : List TaskPhase) (i : Fin ts.length)
      (hr : ts.get i = TaskPhase.running) :
      FanoutStep ⟨a, ts⟩ ⟨a + 1, ts.set i TaskPhase.done⟩

/-- States a round can be in, starting from `fanout_init k n`. -/
def FanoutReachable (k n : Nat) (s : FanoutState) : Prop :=
  Relation.ReflTransGen FanoutStep (fanout_init k n) s

/-- Page `p` of a demonstration backend holding 1000 distinct thing ids in
pages of 200 (the scenario named by the spec): ids `200*p .. 200*p+199`,
with a next cursor on every page but the last. -/
def demoPage (p : Nat) : SearchPage :=
  { items := (List.range 200).map (fun i => some (toString (200 * p + i)))
    cursor := if p < 4 then some ("c" ++ toString p) else none }

/-- Specification predicate for the count-bounded pager claims: starting at
`cursor` with `collected` ids already gathered, the backend serves exactly
the pages of `chain` (each fetch succeeding, each non-final page carrying a
truthy cursor), the ids of the pages before the last stay strictly under
the requested count `c`, and the last page of the chain reaches `c`. -/
def reaches_count (backend : Option String → Except String SearchPage) (c : Nat) :
    List SearchPage → Option String → Nat → Prop
  | [], _, _ => False
  | [p], cursor, collected =>
    backend cursor = Except.ok p ∧ c ≤ collected + (truthyIds p.items).length
  | p :: q :: rest, cursor, collected =>
    backend cursor = Except.ok p
      ∧ collected + (truthyIds p.items).length < c
      ∧ strTruthy p.cursor = true
      ∧ reaches_count backend c (q :: rest) p.cursor
          (collected + (truthyIds p.items).length)

/-- The demonstration backend: cursor `none` yields page 0, cursor `"cp"`
yields page `p+1`. -/
def demoBackend : Option String → Except String SearchPage :=
  fun cur =>
    match cur with
    | none => Except.ok (demoPage 0)
    | some s =>
      if s = "c0" then Except.ok (demoPage 1)
      else if s = "c1" then Except.ok (demoPage 2)
      else if s = "c2" then Except.ok (demoPage 3)
      else if s = "c3" then Except.ok (demoPage 4)
      else Except.error "unknown cursor"

/-! ### Helper lemmas about the retry loop -/

/-- Each retry round splits its failed set into the round's successes and
the still-failed rest, so `retry_success ++ final_failed` is a permutation
of the failed set the retry loop started from. -/
theorem retry_rounds_split_perm (op : String → Nat → Bool) :
    ∀ (remaining attempt : Nat) (failed : List String),
      ((retry_rounds op attempt remaining failed).1
        ++ (retry_rounds op attempt remaining failed).2).Perm failed := by
  intro remaining
  induction remaining with
  | zero => intro attempt failed; simp [retry_rounds]
  | succ r ih =>
    intro attempt failed
    by_cases h : failed.isEmpty = true
    · simp [retry_rounds, h]
    · rw [Bool.not_eq_true] at h
      simp only [retry_rounds, h, Bool.false_eq_true, if_false]
      have hp := ih (attempt + 1) (round_failed (fun id => op id attempt) failed)
      have hfp := List.filter_append_perm (fun id => op id attempt) failed
      refine List.Perm.trans ?_ hfp
      rw [List.append_assoc]
      exact List.Perm.append_left _ hp

/-- An id in the failed set that fails rounds `attempt .. attempt+j-1` and
succeeds in round `attempt+j` (within the remaining budget) ends up in the
accumulated `retry_success` list. -/
theorem retry_rounds_mem_success (op : String → Nat → Bool) {id : String} :
    ∀ (remaining attempt j : Nat) (failed : List String),
      id ∈ failed → j < remaining → op id (attempt + j) = true →
      (∀ i, i < j → op id (attempt + i) = false) →
      id ∈ (retry_rounds op attempt remaining failed).1 := by
  intro remaining
  induction remaining with
  | zero => intro attempt j failed _ hj; omega
  | succ r ih =>
    intro attempt j failed hmem hj hs hf
    by_cases h : failed.isEmpty = true
    · rw [List.isEmpty_iff] at h; subst h; simp at hmem
    · rw [Bool.not_eq_true] at h
      simp only [retry_rounds, h, Bool.false_eq_true, if_false]
      cases j with
      | zero =>
        apply List.mem_append_left
        exact List.mem_filter.mpr ⟨hmem, hs⟩
      | succ jj =>
        apply List.mem_append_right
        have hf0 : op id attempt = false := by
          have := hf 0 (Nat.succ_pos jj)
          simpa using this
        have hstill : id ∈ round_failed (fun i => op i attempt) failed := by
          refine List.mem_filter.mpr ⟨hmem, ?_⟩
          simp [hf0]
        refine ih (attempt + 1) jj _ hstill (by omega) ?_ ?_
        · have he : attempt + 1 + jj = attempt + (jj + 1) := by omega
          rw [he]; exact hs
        · intro i hi
          have he : attempt + 1 + i = attempt + (i + 1) := by omega
          rw [he]; exact hf (i + 1) (by omega)

/-- An id in the failed set that fails every remaining round ends up in the
final failed set of the retry loop. -/
theorem retry_rounds_mem_failed (op : String → Nat → Bool) {id : String} :
    ∀ (remaining attempt : Nat) (failed : List String),
      id ∈ failed → (∀ i, i < remaining → op id (attempt + i) = false) →
      id ∈ (retry_rounds op attempt remaining failed).2 := by
  intro remaining
  induction remaining with
  | zero => intro attempt failed hmem _; simpa [retry_rounds] using hmem
  | succ r ih =>
    intro attempt failed hmem hf
    by_cases h : failed.isEmpty = true
    · rw [List.isEmpty_iff] at h; subst h; simp at hmem
    · rw [Bool.not_eq_true] at h
      simp only [retry_rounds, h, Bool.false_eq_true, if_false]
      have hf0 : op id attempt = false := by simpa using hf 0 (Nat.succ_pos r)
      have hstill : id ∈ round_failed (fun i => op i attempt) failed :=
        List.mem_filter.mpr ⟨hmem, by simp [hf0]⟩
      refine ih (attempt + 1) _ hstill ?_
      intro i hi
      have he : attempt + 1 + i = attempt + (i + 1) := by omega
      rw [he]; exact hf (i + 1) (by omega)

/-- An id that fails every remaining round never enters the accumulated
`retry_success` list. -/
theorem retry_rounds_not_mem_success (op : String → Nat → Bool) {id : String} :
    ∀ (remaining attempt : Nat),
      (∀ i, i < remaining → op id (attempt + i) = false) →
      ∀ failed, id ∉ (retry_rounds op attempt remaining failed).1 := by
  intro remaining
  induction remaining with
  | zero => intro attempt _ failed; simp [retry_rounds]
  | succ r ih =>
    intro attempt hf failed
    by_cases h : failed.isEmpty = true
    · simp [retry_rounds, h]
    · rw [Bool.not_eq_true] at h
      simp only [retry_rounds, h, Bool.false_eq_true, if_false]
      intro hmem
      rcases List.mem_append.mp hmem with hin | hin
      · have := (List.mem_filter.mp hin).2
        have hf0 : op id attempt = false := by simpa using hf 0 (Nat.succ_pos r)
        rw [hf0] at this; exact Bool.false_ne_true this
      · refine ih (attempt + 1) ?_ _ hin
        intro i hi
        have he : attempt + 1 + i = attempt + (i + 1) := by omega
        rw [he]; exact hf (i + 1) (by omega)

/-! ### Helper lemmas about the deletion summary -/

/-- The `total_found` field is always the number of collected ids. -/
theorem dap_total_found (op : String → Nat → Bool) (ids : List String)
    (er : Bool) (mr : Nat) :
    (delete_all_things_parallel op ids er mr).total_found = ids.length := by
  by_cases h : ids.isEmpty = true
  · rw [List.isEmpty_iff] at h; subst h; simp [delete_all_things_parallel]
  · rw [Bool.not_eq_true] at h
    simp [delete_all_things_parallel, h]

/-- Field `deleted_count` counts the first-pass successes plus the retry
successes. -/
theorem dap_deleted_count (op : String → Nat → Bool) (ids : List String)
    (er : Bool) (mr : Nat) :
    (delete_all_things_parallel op ids er mr).deleted_count
      = (first_pass_success op ids).length
        + (delete_all_things_parallel op ids er mr).retry_success.length := by
  by_cases h : ids.isEmpty = true
  · rw [List.isEmpty_iff] at h; subst h
    simp [delete_all_things_parallel, first_pass_success, round_success]
  · rw [Bool.not_eq_true] at h
    simp [delete_all_things_parallel, h, first_pass_success]

/-- First-pass successes, retry successes and the final failure list
together are a permutation of the collected ids. -/
theorem dap_partition_perm (op : String → Nat → Bool) (ids : List String)
    (er : Bool) (mr : Nat) :
    (first_pass_success op ids
      ++ (delete_all_things_parallel op ids er mr).retry_success
      ++ (delete_all_things_parallel op ids er mr).failed_deletions).Perm ids := by
  by_cases h : ids.isEmpty = true
  · rw [List.isEmpty_iff] at h; subst h
    simp [delete_all_things_parallel, first_pass_success, round_success]
  · rw [Bool.not_eq_true] at h
    have hfp := List.filter_append_perm (fun id => op id 0) ids
    simp only [delete_all_things_parallel, h, Bool.false_eq_true, if_false]
    by_cases her : er = true
    · by_cases hf0 : (round_failed (fun id => op id 0) ids).isEmpty = true
      · rw [List.isEmpty_iff] at hf0
        simp only [her, hf0, List.isEmpty_nil, Bool.not_true, Bool.and_false,
          Bool.false_eq_true, if_false, if_true]
        have : round_failed (fun id => op id 0) ids = [] := hf0
        simp only [first_pass_success, round_success, List.append_nil]
        have h2 := hfp
        rw [round_failed] at this
        rw [this, List.append_nil] at h2
        simpa using h2
      · rw [Bool.not_eq_true] at hf0
        simp only [her, hf0, Bool.not_false, Bool.and_true, if_true]
        simp only [first_pass_success, round_success]
        rw [List.append_assoc]
        refine List.Perm.trans ?_ hfp
        refine List.Perm.append_left _ ?_
        have hsp := retry_rounds_split_perm op mr 1 (round_failed (fun id => op id 0) ids)
        simpa [round_failed] using hsp
    · rw [Bool.not_eq_true] at her; subst her
      simp only [Bool.false_and, Bool.false_eq_true, if_false]
      simpa [first_pass_success, round_success, round_failed] using hfp

/-! ### Claim theorems for the fan-out / retry coordinator -/

/-- C1: if the delete of `id` fails on attempts `0 .. R-1` (attempt 0 being
the initial fan-out pass) and succeeds on attempt `R`, then running
`delete_all_things_parallel` with `enable_retry = True` puts `id` into the
`retry_success` list of the summary when `max_retries ≥ R`, and into the
`retry_failed` list when `max_retries < R`. -/
theorem C1_retry_promotion (op : String → Nat → Bool) (ids : List String)
    (id : String) (R mr : Nat)
    (hmem : id ∈ ids) (hR : 1 ≤ R)
    (hfail : ∀ a, a < R → op id a = false)
    (hs : op id R = true) :
    (R ≤ mr → id ∈ (delete_all_things_parallel op ids true mr).retry_success) ∧
    (mr < R → id ∈ (delete_all_things_parallel op ids true mr).retry_failed) := by
  have hne : ids.isEmpty = false := by
    rw [List.isEmpty_eq_false]
    intro h
    subst h
    simp at hmem
  have hf0 : op id 0 = false := hfail 0 hR
  have hmemf : id ∈ round_failed (fun i => op i 0) ids :=
    List.mem_filter.mpr ⟨hmem, by simp [hf0]⟩
  have hf0ne : (round_failed (fun i => op i 0) ids).isEmpty = false := by
    rw [List.isEmpty_eq_false]
    intro h
    rw [h] at hmemf
    simp at hmemf
  constructor
  · intro hRmr
    simp only [delete_all_things_parallel, hne, Bool.false_eq_true, if_false,
      hf0ne, Bool.not_false, Bool.true_and, if_true]
    refine retry_rounds_mem_success op mr 1 (R - 1) _ hmemf (by omega) ?_ ?_
    · have he : 1 + (R - 1) = R := by omega
      rw [he]
      exact hs
    · intro i hi
      exact hfail (1 + i) (by omega)
  · intro hmrR
    simp only [delete_all_things_parallel, hne, Bool.false_eq_true, if_false,
      hf0ne, Bool.not_false, Bool.true_and, if_true]
    refine retry_rounds_mem_failed op mr 1 _ hmemf ?_
    intro i hi
    exact hfail (1 + i) (by omega)

/-- C1 witness: one id that fails the initial pass and succeeds on the first
retry ends up in `retry_success` when `max_retries = 1`. -/
theorem C1_retry_promotion_witness :
    "a" ∈ (delete_all_things_parallel (fun _ a => decide (1 ≤ a)) ["a"] true 1).retry_success :=
  (C1_retry_promotion (fun _ a => decide (1 ≤ a)) ["a"] "a" 1 1 (by simp)
    (le_refl 1) (fun a ha => by interval_cases a; rfl) (by decide)).1 (le_refl 1)

/-- C3: the summary of `delete_all_things_parallel` partitions the collected
ids: `total_found` is the number of collected ids; `deleted_count` plus the
final failed list's length equals `total_found`; the first-pass successes,
the `retry_success` list and the final `failed_deletions` list together are
a permutation of the collected ids (so no id is dropped); and, for distinct
collected ids, that concatenation has no duplicates (the three parts are
pairwise disjoint). -/
theorem C3_summary_partitions (op : String → Nat → Bool) (ids : List String)
    (er : Bool) (mr : Nat) (hnd : ids.Nodup) :
    (delete_all_things_parallel op ids er mr).total_found = ids.length ∧
    (delete_all_things_parallel op ids er mr).deleted_count
        + (delete_all_things_parallel op ids er mr).failed_deletions.length
      = (delete_all_things_parallel op ids er mr).total_found ∧
    (first_pass_success op ids
      ++ (delete_all_things_parallel op ids er mr).retry_success
      ++ (delete_all_things_parallel op ids er mr).failed_deletions).Perm ids ∧
    (first_pass_success op ids
      ++ (delete_all_things_parallel op ids er mr).retry_success
      ++ (delete_all_things_parallel op ids er mr).failed_deletions).Nodup := by
  have hperm := dap_partition_perm op ids er mr
  refine ⟨dap_total_found op ids er mr, ?_, hperm, hperm.symm.nodup hnd⟩
  have hlen := hperm.length_eq
  simp only [List.length_append] at hlen
  rw [dap_deleted_count op ids er mr, dap_total_found op ids er mr]
  omega

/-- C3 witness: the partition equations at a concrete two-id run in which
one id keeps failing. -/
theorem C3_summary_partitions_witness :
    (delete_all_things_parallel (fun id _ => id != "b") ["a", "b"] true 2).deleted_count
        + (delete_all_things_parallel (fun id _ => id != "b") ["a", "b"] true 2).failed_deletions.length
      = (delete_all_things_parallel (fun id _ => id != "b") ["a", "b"] true 2).total_found ∧
    (first_pass_success (fun id _ => id != "b") ["a", "b"]
      ++ (delete_all_things_parallel (fun id _ => id != "b") ["a", "b"] true 2).retry_success
      ++ (delete_all_things_parallel (fun id _ => id != "b") ["a", "b"] true 2).failed_deletions).Perm
      ["a", "b"] :=
  ⟨(C3_summary_partitions (fun id _ => id != "b") ["a", "b"] true 2 (by decide)).2.1,
   (C3_summary_partitions (fun id _ => id != "b") ["a", "b"] true 2 (by decide)).2.2.1⟩

/-- C6: the `success` field of the summary is true exactly when the final
permanent-failure list (`retry_failed` when retries are enabled,
`failed_deletions` otherwise) is empty; concretely, with 5 ids of which one
fails every round and `max_retries = 2`, the summary has `success = false`
and that id as the sole permanently-failed entry. -/
theorem C6_success_iff_no_permanent_failure (op : String → Nat → Bool)
    (ids : List String) (er : Bool) (mr : Nat) :
    ((delete_all_things_parallel op ids er mr).success = true ↔
      (if er then (delete_all_things_parallel op ids er mr).retry_failed
       else (delete_all_things_parallel op ids er mr).failed_deletions) = []) ∧
    (delete_all_things_parallel (fun id _ => id != "bad")
        ["t1", "t2", "t3", "t4", "bad"] true 2).success = false ∧
    (delete_all_things_parallel (fun id _ => id != "bad")
        ["t1", "t2", "t3", "t4", "bad"] true 2).retry_failed = ["bad"] := by
  refine ⟨?_, by decide, by decide⟩
  by_cases h : ids.isEmpty = true
  · rw [List.isEmpty_iff] at h
    subst h
    simp [delete_all_things_parallel]
  · rw [Bool.not_eq_true] at h
    cases er with
    | false => simp [delete_all_things_parallel, h, List.isEmpty_iff]
    | true => simp [delete_all_things_parallel, h, List.isEmpty_iff]

/-- C7: in both `delete_thing` and `async_delete_thing`, a 404 response is
reported as success exactly like a 204 response, and a response with any
other status code is reported as failure (so, in particular, every
non-success status other than 404 is a failure). -/
theorem C7_not_found_is_success (s : Nat) :
    delete_thing (Except.ok 404) = true ∧
    delete_thing (Except.ok 204) = true ∧
    async_delete_thing (Except.ok 404) = true ∧
    async_delete_thing (Except.ok 204) = true ∧
    (delete_thing (Except.ok s) = true ↔ s = 204 ∨ s = 404) ∧
    (async_delete_thing (Except.ok s) = true ↔ s = 204 ∨ s = 404) := by
  refine ⟨rfl, rfl, rfl, rfl, ?_, ?_⟩ <;>
    simp [delete_thing, async_delete_thing]

/-- C8: an exception raised while deleting one item is recorded as a failure
for that item only: the item reaches no success list and ends in the final
failure list, and the whole summary is unchanged when the item's exceptions
are replaced by item-level failing responses — the round is not aborted and
no error escapes to the caller. -/
theorem C8_exception_is_item_failure (oracle : String → Nat → DeleteResponse)
    (ids : List String) (x : String) (er : Bool) (mr : Nat)
    (hx : ∀ a, ∃ e, oracle x a = Except.error e) (hmem : x ∈ ids) :
    x ∉ first_pass_success (fun id a => async_delete_thing (oracle id a)) ids ∧
    x ∉ (delete_all_things_parallel (fun id a => async_delete_thing (oracle id a))
          ids er mr).retry_success ∧
    x ∈ (delete_all_things_parallel (fun id a => async_delete_thing (oracle id a))
          ids er mr).failed_deletions ∧
    delete_all_things_parallel (fun id a => async_delete_thing (oracle id a)) ids er mr
      = delete_all_things_parallel
          (fun id a => async_delete_thing (if id = x then Except.ok 500 else oracle id a))
          ids er mr := by
  have hfx : ∀ a, async_delete_thing (oracle x a) = false := by
    intro a
    obtain ⟨e, he⟩ := hx a
    rw [he]
    rfl
  have hne : ids.isEmpty = false := by
    rw [List.isEmpty_eq_false]
    intro h
    subst h
    simp at hmem
  have hmemf : x ∈ round_failed (fun i => async_delete_thing (oracle i 0)) ids :=
    List.mem_filter.mpr ⟨hmem, by simp [hfx 0]⟩
  have hf0ne :
      (round_failed (fun i => async_delete_thing (oracle i 0)) ids).isEmpty = false := by
    rw [List.isEmpty_eq_false]
    intro h
    rw [h] at hmemf
    simp at hmemf
  refine ⟨?_, ?_, ?_, ?_⟩
  · intro hin
    simp only [first_pass_success, round_success] at hin
    have hone := (List.mem_filter.mp hin).2
    rw [hfx 0] at hone
    exact Bool.false_ne_true hone
  · cases er with
    | false =>
      simp [delete_all_things_parallel, hne]
    | true =>
      simp only [delete_all_things_parallel, hne, Bool.false_eq_true, if_false,
        hf0ne, Bool.not_false, Bool.true_and, if_true]
      exact retry_rounds_not_mem_success _ mr 1 (fun i _ => hfx (1 + i)) _
  · cases er with
    | false =>
      simp only [delete_all_things_parallel, hne, Bool.false_eq_true, if_false,
        Bool.false_and, if_true]
      simpa using hmemf
    | true =>
      simp only [delete_all_things_parallel, hne, Bool.false_eq_true, if_false,
        hf0ne, Bool.not_false, Bool.true_and, if_true]
      exact retry_rounds_mem_failed _ mr 1 _ hmemf (fun i _ => hfx (1 + i))
  · have hop : (fun id a => async_delete_thing (oracle id a))
        = fun id a => async_delete_thing (if id = x then Except.ok 500 else oracle id a) := by
      funext id a
      by_cases hid : id = x
      · subst hid
        rw [if_pos rfl, hfx a]
        rfl
      · rw [if_neg hid]
    rw [hop]

/-- C8 witness: an oracle that always raises for id `x` at a concrete
two-id run. -/
theorem C8_exception_is_item_failure_witness :
    "x" ∈ (delete_all_things_parallel
        (fun id _ => async_delete_thing
          (if id = "x" then Except.error "boom" else Except.ok 204))
        ["x", "y"] true 2).failed_deletions :=
  (C8_exception_is_item_failure
    (fun id _ => if id = "x" then Except.error "boom" else Except.ok 204)
    ["x", "y"] "x" true 2
    (fun _ => ⟨"boom", by simp⟩) (by simp)).2.2.1

/-! ### Helper lemmas about the pager -/

/-- When the count bound falls within the truthy ids of the current page,
the item loop stops inside that page, returning exactly the ids needed to
reach the bound. -/
theorem take_items_reaches_count (c : Nat) :
    ∀ (items : List (Option String)) (collected : Nat),
      collected < c → c ≤ collected + (truthyIds items).length →
      take_items (some c) collected items
        = ((truthyIds items).take (c - collected), true) := by
  intro items
  induction items with
  | nil =>
    intro collected h1 h2
    simp [truthyIds] at h2
    omega
  | cons it rest ih =>
    intro collected h1 h2
    by_cases ht : strTruthy it = true
    · have hcons : truthyIds (it :: rest) = it.getD "" :: truthyIds rest := by
        simp [truthyIds, ht]
      by_cases hc : c ≤ collected + 1
      · have hceq : c = collected + 1 := by omega
        simp only [take_items, ht, if_true, hc]
        rw [hcons, hceq]
        simp
      · simp only [take_items, ht, if_true, hc, if_false]
        have h2r : c ≤ collected + 1 + (truthyIds rest).length := by
          rw [hcons] at h2
          simp only [List.length_cons] at h2
          omega
        rw [ih (collected + 1) (by omega) h2r, hcons]
        have hcc : c - collected = (c - (collected + 1)) + 1 := by omega
        rw [hcc, List.take_succ_cons]
    · rw [Bool.not_eq_true] at ht
      have hcons : truthyIds (it :: rest) = truthyIds rest := by
        simp [truthyIds, ht]
      simp only [take_items, ht, Bool.false_eq_true, if_false]
      rw [hcons] at h2
      rw [ih collected h1 h2, hcons]

/-! ### Claim theorems for the pager -/

/-- C2 counterexample: a backend whose first page has zero items but a
non-empty cursor `"k"`, and whose page at `"k"` holds one thing.  The claim
says collection terminates at the zero-item page; the code instead follows
the cursor, issues a second page request, and returns the id of the second
page. -/
theorem C2_counterexample_empty_page_continues :
    collect_thing_ids
      (fun cur =>
        match cur with
        | none => Except.ok ⟨[], some "k"⟩
        | some s => if s = "k" then Except.ok ⟨[some "b"], none⟩ else Except.error "no page")
      none 5
      = (["b"], 2) := by
  rfl

/-- C2 amended: collection stops exactly when the page request fails, or the
requested maximum count is reached while scanning the page's items, or the
page carries no (or an empty) next cursor — whichever comes first; a page
with zero items but a non-empty cursor does NOT stop collection: the pager
issues one more page request and continues. -/
theorem C2_amended_stop_conditions (backend : Option String → Except String SearchPage)
    (count : Option Nat) (fuel : Nat) (cursor : Option String) (collected : Nat) :
    (∀ e, backend cursor = Except.error e →
      collect_loop backend count (fuel + 1) cursor collected = ([], 1)) ∧
    (∀ page, backend cursor = Except.ok page →
      (take_items count collected page.items).2 = true →
      collect_loop backend count (fuel + 1) cursor collected
        = ((take_items count collected page.items).1, 1)) ∧
    (∀ page, backend cursor = Except.ok page → strTruthy page.cursor = false →
      collect_loop backend count (fuel + 1) cursor collected
        = ((take_items count collected page.items).1, 1)) ∧
    (∀ page, backend cursor = Except.ok page →
      (take_items count collected page.items).2 = false →
      strTruthy page.cursor = true →
      collect_loop backend count (fuel + 1) cursor collected
        = ((take_items count collected page.items).1
            ++ (collect_loop backend count fuel page.cursor
                  (collected + (take_items count collected page.items).1.length)).1,
           (collect_loop backend count fuel page.cursor
                  (collected + (take_items count collected page.items).1.length)).2 + 1)) := by
  refine ⟨?_, ?_, ?_, ?_⟩
  · intro e he
    simp [collect_loop, he]
  · intro page hp ht
    simp [collect_loop, hp, ht]
  · intro page hp hc
    by_cases ht : (take_items count collected page.items).2 = true
    · simp [collect_loop, hp, ht]
    · rw [Bool.not_eq_true] at ht
      simp [collect_loop, hp, ht, hc]
  · intro page hp ht hc
    simp [collect_loop, hp, ht, hc]

/-- C2 amended witness: a failing page request stops collection after one
request. -/
theorem C2_amended_stop_conditions_witness :
    collect_loop (fun _ => Except.error "down") none 1 none 0 = ([], 1) :=
  (C2_amended_stop_conditions (fun _ => Except.error "down") none 0 none 0).1 "down" rfl

/-- A page whose truthy ids leave the running total strictly below the
count bound is consumed whole, without triggering the count stop. -/
theorem take_items_under_count (c : Nat) :
    ∀ (items : List (Option String)) (collected : Nat),
      collected + (truthyIds items).length < c →
      take_items (some c) collected items = (truthyIds items, false) := by
  intro items
  induction items with
  | nil =>
    intro collected _
    simp [take_items, truthyIds]
  | cons it rest ih =>
    intro collected h
    by_cases ht : strTruthy it = true
    · have hcons : truthyIds (it :: rest) = it.getD "" :: truthyIds rest := by
        simp [truthyIds, ht]
      rw [hcons] at h
      simp only [List.length_cons] at h
      have hc : ¬ (c ≤ collected + 1) := by omega
      simp only [take_items, ht, if_true, hc, if_false]
      rw [ih (collected + 1) (by omega), hcons]
    · rw [Bool.not_eq_true] at ht
      have hcons : truthyIds (it :: rest) = truthyIds rest := by
        simp [truthyIds, ht]
      simp only [take_items, ht, Bool.false_eq_true, if_false]
      rw [hcons] at h
      rw [ih collected h, hcons]

/-- Running the collection loop against a page chain that reaches the count
bound in its last page yields exactly the missing number of ids and one
request per chain page. -/
theorem collect_loop_reaches_count (backend : Option String → Except String SearchPage)
    (c : Nat) :
    ∀ (chain : List SearchPage) (cursor : Option String) (collected fuel : Nat),
      collected < c →
      reaches_count backend c chain cursor collected →
      chain.length ≤ fuel →
      (collect_loop backend (some c) fuel cursor collected).1.length = c - collected ∧
      (collect_loop backend (some c) fuel cursor collected).2 = chain.length := by
  intro chain
  induction chain with
  | nil =>
    intro cursor collected fuel _ hch _
    exact absurd hch (by simp [reaches_count])
  | cons p rest ih =>
    intro cursor collected fuel hcol hch hfuel
    cases fuel with
    | zero => simp at hfuel
    | succ f =>
      cases rest with
      | nil =>
        obtain ⟨hp, hreach⟩ := hch
        have ht := take_items_reaches_count c p.items collected hcol hreach
        constructor
        · simp only [collect_loop, hp, ht]
          simp [List.length_take]
          omega
        · simp [collect_loop, hp, ht]
      | cons q rest2 =>
        obtain ⟨hp, hunder, hcur, hrec⟩ := hch
        have ht := take_items_under_count c p.items collected hunder
        have hih := ih p.cursor (collected + (truthyIds p.items).length) f
          (by omega) hrec (by simpa using Nat.le_of_succ_le_succ hfuel)
        have h1 := hih.1
        have h2 := hih.2
        constructor
        · simp only [collect_loop, hp, ht, hcur]
          simp
          omega
        · simp only [collect_loop, hp, ht, hcur]
          simp
          simp only [List.length_cons] at h2
          omega

/-- C4: when the pager is given a positive maximum count `c` that the
backend's page chain reaches at some page, it returns exactly `c` ids and
issues exactly one page request per chain page — it never requests a page
beyond the one in which the maximum was reached. -/
theorem C4_count_bound_exact (backend : Option String → Except String SearchPage)
    (c fuel : Nat) (chain : List SearchPage)
    (hc : 0 < c)
    (hchain : reaches_count backend c chain none 0)
    (hfuel : chain.length ≤ fuel) :
    (collect_thing_ids backend (some c) fuel).1.length = c ∧
    (collect_thing_ids backend (some c) fuel).2 = chain.length := by
  have h := collect_loop_reaches_count backend c chain none 0 fuel hc hchain hfuel
  rw [collect_thing_ids]
  simpa using h

set_option maxRecDepth 4000 in
/-- C4 witness: the spec scenario — `maxCount = 50`, page size 200, a
backend holding 1000 ids across five pages — yields exactly 50 ids from a
single page request. -/
theorem C4_count_bound_exact_witness :
    (collect_thing_ids demoBackend (some 50) 5).1.length = 50 ∧
    (collect_thing_ids demoBackend (some 50) 5).2 = 1 := by
  have h := C4_count_bound_exact demoBackend 50 5 [demoPage 0] (by omega)
    ⟨rfl, by decide⟩ (by simp)
  simpa using h

/-- C9: if the page request after a successfully consumed first page raises
a transport/backend error, the pager stops and returns the ids gathered so
far as a partial result — exactly two page requests are issued (the failing
fetch is not retried), and no error propagates: the function still returns
a value. -/
theorem C9_page_error_truncates (backend : Option String → Except String SearchPage)
    (count : Option Nat) (fuel : Nat) (items : List (Option String)) (c e : String)
    (h1 : backend none = Except.ok ⟨items, some c⟩)
    (hc : c ≠ "")
    (h2 : (take_items count 0 items).2 = false)
    (h3 : backend (some c) = Except.error e) :
    collect_thing_ids backend count (fuel + 2) = ((take_items count 0 items).1, 2) := by
  have hct : strTruthy (some c) = true := by simp [strTruthy, hc]
  rw [collect_thing_ids]
  simp [collect_loop, h1, h2, hct, h3]

/-- C9 witness: two ids gathered from the first page survive a transport
error on the second page request. -/
theorem C9_page_error_truncates_witness :
    collect_thing_ids
      (fun cur =>
        match cur with
        | none => Except.ok ⟨[some "a1", some "a2"], some "k"⟩
        | some _ => Except.error "transport down")
      none 5
      = (["a1", "a2"], 2) :=
  C9_page_error_truncates
    (fun cur =>
      match cur with
      | none => Except.ok ⟨[some "a1", some "a2"], some "k"⟩
      | some _ => Except.error "transport down")
    none 3 [some "a1", some "a2"] "k" "transport down" rfl (by decide) rfl rfl

/-! ### Claim theorem for the concurrency bound -/

/-- No task of a fresh round is running. -/
theorem countP_replicate_pending (n : Nat) :
    (List.replicate n TaskPhase.pending).countP (fun t => t = TaskPhase.running) = 0 := by
  induction n with
  | zero => rfl
  | succ m ih => simp [List.replicate_succ, List.countP_cons, ih]

/-- One event-loop step preserves the permit-accounting invariant: free
permits plus running tasks always total the configured ceiling. -/
theorem fanout_step_invariant {k : Nat} {s t : FanoutState} (h : FanoutStep s t)
    (hs : s.avail + running_count s = k) : t.avail + running_count t = k := by
  cases h with
  | acquire a ts i hp =>
    have hget : ts[i.val] = TaskPhase.pending := by
      rw [← List.get_eq_getElem ts i]
      exact hp
    have hset := List.countP_set (fun x => x = TaskPhase.running) ts i.val
      TaskPhase.running i.isLt
    simp only [running_count] at hs ⊢
    rw [hset, hget]
    simp
    omega
  | release a ts i hr =>
    have hget : ts[i.val] = TaskPhase.running := by
      rw [← List.get_eq_getElem ts i]
      exact hr
    have hpos : 0 < ts.countP (fun x => decide (x = TaskPhase.running)) := by
      refine List.countP_pos_iff.mpr ⟨ts[i.val], List.getElem_mem i.isLt, ?_⟩
      simp [hget]
    have hset := List.countP_set (fun x => x = TaskPhase.running) ts i.val
      TaskPhase.done i.isLt
    simp only [running_count] at hs ⊢
    rw [hset, hget]
    simp
    omega

/-- Permit accounting along any execution of a round: in every reachable
state, free permits plus running tasks equal the ceiling. -/
theorem fanout_reachable_invariant (k n : Nat) (s : FanoutState)
    (h : FanoutReachable k n s) : s.avail + running_count s = k := by
  induction h with
  | refl => simp [fanout_init, running_count, countP_replicate_pending]
  | tail hab hbc ih => exact fanout_step_invariant hbc ih

/-- C5: at every instant of a fan-out round — every state reachable from
the round's initial state under the semaphore's acquire/release steps — the
number of delete operations executing concurrently is at most the
configured `max_concurrent` ceiling, for every id count and every ceiling
value. -/
theorem C5_concurrency_bound (k n : Nat) (s : FanoutState)
    (h : FanoutReachable k n s) : running_count s ≤ k := by
  have hinv := fanout_reachable_invariant k n s h
  omega

/-- C5 witness: a state of a 3-task round with ceiling 2 in which one task
has acquired the semaphore. -/
theorem C5_concurrency_bound_witness :
    running_count
      { avail := 1
        tasks := [TaskPhase.running, TaskPhase.pending, TaskPhase.pending] } ≤ 2 :=
  C5_concurrency_bound 2 3 _
    (Relation.ReflTransGen.single
      (FanoutStep.acquire 1 (List.replicate 3 TaskPhase.pending) ⟨0, by decide⟩ rfl))

/-! ### Helper lemmas about the fleet-spawn loop -/

/-- Every iteration of the creation loop accounts for exactly one unit:
created plus failed grows by exactly the number of remaining attempts. -/
theorem spawn_loop_count (gen : Nat → SpawnOutcome) :
    ∀ (remaining i created : Nat) (failed : List String),
      (spawn_loop gen i remaining created failed).1
        + (spawn_loop gen i remaining created failed).2.length
      = created + failed.length + remaining := by
  intro remaining
  induction remaining with
  | zero =>
    intro i created failed
    simp [spawn_loop]
  | succ r ih =>
    intro i created failed
    cases hg : gen i with
    | error e =>
      simp only [spawn_loop, hg]
      have hr := ih (i + 1) created (failed ++ ["unknown-" ++ toString created])
      simp only [List.length_append, List.length_cons, List.length_nil] at hr
      omega
    | ok pr =>
      obtain ⟨tid, okb⟩ := pr
      simp only [spawn_loop, hg]
      by_cases hok : okb = true
      · subst hok
        simp only [if_true]
        have hr := ih (i + 1) (created + 1) failed
        omega
      · rw [Bool.not_eq_true] at hok
        subst hok
        simp only [Bool.false_eq_true, if_false]
        have hr := ih (i + 1) created (failed ++ [tid])
        simp only [List.length_append, List.length_cons, List.length_nil] at hr
        omega

/-- The failed-creations accumulator only grows. -/
theorem spawn_loop_failed_mono (gen : Nat → SpawnOutcome) {x : String} :
    ∀ (remaining i created : Nat) (failed : List String),
      x ∈ failed → x ∈ (spawn_loop gen i remaining created failed).2 := by
  intro remaining
  induction remaining with
  | zero =>
    intro i created failed h
    simpa [spawn_loop] using h
  | succ r ih =>
    intro i created failed h
    cases hg : gen i with
    | error e =>
      simp only [spawn_loop, hg]
      exact ih (i + 1) created _ (List.mem_append_left _ h)
    | ok pr =>
      obtain ⟨tid, okb⟩ := pr
      simp only [spawn_loop, hg]
      by_cases hok : okb = true
      · subst hok
        simp only [if_true]
        exact ih (i + 1) _ _ h
      · rw [Bool.not_eq_true] at hok
        subst hok
        simp only [Bool.false_eq_true, if_false]
        exact ih (i + 1) _ _ (List.mem_append_left _ h)

/-- An exception in any scheduled iteration leaves an `unknown-` placeholder
in the failed-creations list. -/
theorem spawn_loop_error_placeholder (gen : Nat → SpawnOutcome) :
    ∀ (remaining i created : Nat) (failed : List String) (j : Nat) (e : String),
      i ≤ j → j < i + remaining → gen j = Except.error e →
      ∃ k : Nat, ("unknown-" ++ toString k) ∈ (spawn_loop gen i remaining created failed).2 := by
  intro remaining
  induction remaining with
  | zero =>
    intro i created failed j e h1 h2 _
    omega
  | succ r ih =>
    intro i created failed j e h1 h2 hj
    by_cases hij : j = i
    · subst hij
      simp only [spawn_loop, hj]
      refine ⟨created, spawn_loop_failed_mono gen r (j + 1) created _ ?_⟩
      exact List.mem_append_right _ (by simp)
    · cases hg : gen i with
      | error e2 =>
        simp only [spawn_loop, hg]
        exact ih (i + 1) created _ j e (by omega) (by omega) hj
      | ok pr =>
        obtain ⟨tid, okb⟩ := pr
        simp only [spawn_loop, hg]
        by_cases hok : okb = true
        · subst hok
          simp only [if_true]
          exact ih (i + 1) _ _ j e (by omega) (by omega) hj
        · rw [Bool.not_eq_true] at hok
          subst hok
          simp only [Bool.false_eq_true, if_false]
          exact ih (i + 1) _ _ j e (by omega) (by omega) hj

/-- The creation loop consults exactly the outcomes of the scheduled
iterations: two oracles agreeing there produce identical results. -/
theorem spawn_loop_congr (gen gen2 : Nat → SpawnOutcome) :
    ∀ (remaining i created : Nat) (failed : List String),
      (∀ j, i ≤ j → j < i + remaining → gen j = gen2 j) →
      spawn_loop gen i remaining created failed
        = spawn_loop gen2 i remaining created failed := by
  intro remaining
  induction remaining with
  | zero =>
    intro i created failed _
    simp [spawn_loop]
  | succ r ih =>
    intro i created failed hag
    have h0 : gen i = gen2 i := hag i (le_refl i) (by omega)
    cases hg : gen2 i with
    | error e =>
      simp only [spawn_loop, h0, hg]
      exact ih (i + 1) created _ (fun j hj1 hj2 => hag j (by omega) (by omega))
    | ok pr =>
      obtain ⟨tid, okb⟩ := pr
      simp only [spawn_loop, h0, hg]
      by_cases hok : okb = true
      · subst hok
        simp only [if_true]
        exact ih (i + 1) _ _ (fun j hj1 hj2 => hag j (by omega) (by omega))
      · rw [Bool.not_eq_true] at hok
        subst hok
        simp only [Bool.false_eq_true, if_false]
        exact ih (i + 1) _ _ (fun j hj1 hj2 => hag j (by omega) (by omega))

/-- C10: `spawn_fleet` performs exactly `count` creation attempts — its
result depends only on the outcomes of iterations `0 .. count-1`, and
`created_count + length(failed_creations) = count`; `success` is true
exactly when `failed_creations` is empty; an exception during one attempt
contributes an `unknown-` placeholder to `failed_creations` and the
remaining attempts still run (the accounting above holds for any oracle,
exceptions included). -/
theorem C10_spawn_fleet_accounting (gen : Nat → SpawnOutcome) (count : Nat) :
    (spawn_fleet gen count).requested_count = count ∧
    (spawn_fleet gen count).created_count
        + (spawn_fleet gen count).failed_creations.length = count ∧
    ((spawn_fleet gen count).success = true ↔
      (spawn_fleet gen count).failed_creations = []) ∧
    (∀ gen2 : Nat → SpawnOutcome, (∀ i, i < count → gen i = gen2 i) →
      spawn_fleet gen count = spawn_fleet gen2 count) ∧
    (∀ i e, i < count → gen i = Except.error e →
      ∃ k : Nat, ("unknown-" ++ toString k) ∈ (spawn_fleet gen count).failed_creations) := by
  refine ⟨rfl, ?_, ?_, ?_, ?_⟩
  · have h := spawn_loop_count gen count 0 0 []
    simpa [spawn_fleet] using h
  · simp [spawn_fleet, List.isEmpty_iff]
  · intro gen2 hag
    have h := spawn_loop_congr gen gen2 count 0 0 [] (fun j _ hj2 => hag j (by omega))
    simp [spawn_fleet, h]
  · intro i e hi hg
    have h := spawn_loop_error_placeholder gen count 0 0 [] i e (by omega) (by omega) hg
    simpa [spawn_fleet] using h

/-- C10 witness: three attempts with an exception on the first — the counts
still add up and a placeholder is recorded. -/
theorem C10_spawn_fleet_accounting_witness :
    (spawn_fleet (fun i => if i = 0 then Except.error "boom"
        else Except.ok ("t" ++ toString i, true)) 3).created_count
      + (spawn_fleet (fun i => if i = 0 then Except.error "boom"
          else Except.ok ("t" ++ toString i, true)) 3).failed_creations.length = 3 ∧
    ∃ k : Nat, ("unknown-" ++ toString k) ∈ (spawn_fleet (fun i => if i = 0 then Except.error "boom"
        else Except.ok ("t" ++ toString i, true)) 3).failed_creations :=
  ⟨(C10_spawn_fleet_accounting (fun i => if i = 0 then Except.error "boom"
      else Except.ok ("t" ++ toString i, true)) 3).2.1,
   (C10_spawn_fleet_accounting (fun i => if i = 0 then Except.error "boom"
      else Except.ok ("t" ++ toString i, true)) 3).2.2.2.2 0 "boom" (by omega) rfl⟩
